import Mathlib

/-!
Verification of the Shelfly bookstore pricing and order-settlement engine
(`bookstore/models.py`, `bookstore/views.py`) against its specification.

Modelling conventions:
* Monetary values (Django `DecimalField`, Python `Decimal`) are embedded as
  `ℚ`: every arithmetic step performed by the source on these values
  (addition, subtraction, multiplication, division by 100, `min`) is exact
  on the decimals that occur, so `ℚ` computes the same results.
* Text (Python `str`) is embedded as `List Nat` of character codes with
  ASCII semantics for `strip` / `upper` / `isdigit`.
* Database rows are Lean structures kept in lists; the state `St` carries
  every table touched by checkout, coupon application and cancellation for
  the single customer the views operate on.
* The source opens no database transaction, so Django autocommit applies:
  every `save()` / `create()` persists immediately, and an exception caught
  by a view leaves the earlier writes in place.  Operations therefore
  return the (possibly partially mutated) state together with the result.
* Instants (`datetime` / `timezone.now()`) are embedded as `Int` ticks;
  card expiry uses the current year and month as two `Int` parameters.
-/

namespace Shelfly

/-! ## Text helpers (ASCII semantics of the Python string methods used) -/

/-- Text is a list of character codes. -/
abbrev Str := List Nat

/-- Python whitespace test used by `str.strip()`. -/
def isSpaceCode (c : Nat) : Bool :=
  c == 32 || c == 9 || c == 10 || c == 13 || c == 11 || c == 12

/-- Python `str.strip()`: drop leading and trailing whitespace. -/
def pyStrip (s : Str) : Str :=
  ((s.dropWhile isSpaceCode).reverse.dropWhile isSpaceCode).reverse

/-- ASCII lower-case letter test. -/
def isLowerCode (c : Nat) : Bool := 97 ≤ c && c ≤ 122

/-- Python `str.upper()` on one ASCII character. -/
def upperCode (c : Nat) : Nat := if isLowerCode c then c - 32 else c

/-- Python `str.upper()`. -/
def pyUpper (s : Str) : Str := s.map upperCode

/-- ASCII digit test. -/
def isDigitCode (c : Nat) : Bool := 48 ≤ c && c ≤ 57

/-- Numeric value of an ASCII digit. -/
def digitVal (c : Nat) : Nat := c - 48

/-- Python `str.isdigit()`: non-empty and all digits. -/
def pyIsDigit (s : Str) : Bool := !s.isEmpty && s.all isDigitCode

/-- Python `int(...)` of a stripped field: an optional sign followed by
digits; anything else raises (`none`). -/
def parseNat (s : Str) : Option Nat :=
  if s ≠ [] ∧ s.all isDigitCode = true then
    some (s.foldl (fun acc c => acc * 10 + digitVal c) 0)
  else none

/-- Python `int(...)` including a leading sign. -/
def parseInt (s : Str) : Option Int :=
  match s with
  | 43 :: rest => (parseNat rest).map (fun n => (n : Int))
  | 45 :: rest => (parseNat rest).map (fun n => -(n : Int))
  | _ => (parseNat s).map (fun n => (n : Int))

/-! ## Data model (`bookstore/models.py`) -/

/-- `Coupon.DISCOUNT_TYPE_CHOICES`. -/
inductive DiscountType
  | fixed
  | percentage
  deriving DecidableEq, Repr

/-- `Book`: the fields the engine reads and mutates. -/
structure Book where
  id : Nat
  price : ℚ
  stock : Nat
  deriving DecidableEq, Repr

/-- `Customer`: only the first-time-buyer flag matters to the engine. -/
structure Customer where
  id : Nat
  is_first_time_buyer : Bool
  deriving DecidableEq, Repr

/-- `Coupon`.  `current_usage` is an `Int` because the cancellation view
decrements it with plain integer arithmetic. -/
structure Coupon where
  id : Nat
  code : Str
  discount_type : DiscountType
  discount_value : ℚ
  max_usage : Int
  current_usage : Int
  min_purchase : ℚ
  expiry_date : Int
  is_active : Bool
  deriving DecidableEq, Repr

/-- `CouponUsage`: join row of (coupon, customer, order).  The model class
declares `unique_together = (coupon, order)`. -/
structure CouponUsage where
  couponId : Nat
  customerId : Nat
  orderId : Nat
  deriving DecidableEq, Repr

/-- `Order.STATUS_CHOICES`. -/
inductive OrderStatus
  | Pending
  | Confirmed
  | Shipped
  | Delivered
  | Cancelled
  deriving DecidableEq, Repr

/-- `Order`: frozen settlement snapshot. -/
structure Order where
  id : Nat
  customerId : Nat
  status : OrderStatus
  delivery_name : Str
  delivery_phone : Str
  delivery_address : Str
  delivery_notes : Option Str
  shipping_fee : ℚ
  applied_coupon : Option Nat
  coupon_discount : ℚ
  order_value_discount : ℚ
  first_time_discount : ℚ
  discount_code_used : Option Str
  cancellation_reason : Option Str
  cancelled_at : Option Int
  deriving DecidableEq, Repr

/-- `OrderItem`. -/
structure OrderItem where
  orderId : Nat
  bookId : Nat
  quantity : Nat
  unit_price : ℚ
  subtotal : ℚ
  deriving DecidableEq, Repr

/-- `Payment.PAYMENT_METHODS`. -/
inductive PayMethod
  | Cash
  | Card
  deriving DecidableEq, Repr

/-- `Payment.PAYMENT_STATUS`. -/
inductive PayStatus
  | Unpaid
  | Paid
  | Failed
  | Refunded
  deriving DecidableEq, Repr

/-- `Payment`. -/
structure Payment where
  orderId : Nat
  amount : ℚ
  method : PayMethod
  status : PayStatus
  deriving DecidableEq, Repr

/-- `CartItem`: (cart, book) pair with a quantity. -/
structure CartItem where
  bookId : Nat
  quantity : Nat
  deriving DecidableEq, Repr

/-- `Cart` of the one customer the views act for. -/
structure Cart where
  items : List CartItem
  applied_coupon : Option Nat
  deriving DecidableEq, Repr

/-- Delivery details read from the checkout form. -/
structure Delivery where
  name : Str
  phone : Str
  address : Str
  notes : Option Str
  deriving DecidableEq, Repr

/-- Database state of the tables the engine touches. -/
structure St where
  books : List Book
  coupons : List Coupon
  customer : Customer
  cart : Cart
  orders : List Order
  orderItems : List OrderItem
  payments : List Payment
  usages : List CouponUsage
  nextOrderId : Nat
  deriving DecidableEq, Repr

/-- Row lookup by primary key. -/
def findBook (books : List Book) (i : Nat) : Option Book :=
  books.find? (fun b => b.id == i)

/-- Row lookup by primary key. -/
def findCoupon (cs : List Coupon) (i : Nat) : Option Coupon :=
  cs.find? (fun c => c.id == i)

/-- `book.save()`: write the row with the same primary key back. -/
def updateBook (books : List Book) (b : Book) : List Book :=
  books.map (fun x => if x.id = b.id then b else x)

/-- `coupon.save()`: write the row with the same primary key back. -/
def updateCoupon (cs : List Coupon) (c : Coupon) : List Coupon :=
  cs.map (fun x => if x.id = c.id then c else x)

/-! ## Coupon validity and discount (`models.py` 60–78) -/

/-- The three failure reasons of `Coupon.is_valid`, in source order. -/
inductive CouponInvalidReason
  | inactive
  | usageLimitReached
  | expired
  deriving DecidableEq, Repr

/-- `Coupon.is_valid` (models.py 60–71): active, under the usage limit,
not expired — checked in that order, first failure wins.  `now` is the
current instant. -/
def couponValidate (c : Coupon) (now : Int) : Option CouponInvalidReason :=
  if !c.is_active then some .inactive
  else if c.current_usage ≥ c.max_usage then some .usageLimitReached
  else if now > c.expiry_date then some .expired
  else none

/-- Boolean verdict of `Coupon.is_valid`. -/
def couponIsValid (c : Coupon) (now : Int) : Bool :=
  (couponValidate c now).isNone

/-- `Coupon.calculate_discount` (models.py 73–78). -/
def calculateDiscount (c : Coupon) (amount : ℚ) : ℚ :=
  match c.discount_type with
  | .fixed => min c.discount_value amount
  | .percentage => amount * c.discount_value / 100

/-! ## Cart pricing (`models.py` 205–298) -/

/-- `CartItem.subtotal` (models.py 295–298): current book price times
quantity.  The `none` branch (missing book row) cannot arise for a
well-formed database state; it is mapped to 0. -/
def cartItemSubtotal (books : List Book) (it : CartItem) : ℚ :=
  match findBook books it.bookId with
  | some b => b.price * it.quantity
  | none => 0

/-- `Cart.subtotal` (models.py 205–208). -/
def cartSubtotal (books : List Book) (cart : Cart) : ℚ :=
  (cart.items.map (cartItemSubtotal books)).sum

/-- `Cart.total_items` (models.py 253–256). -/
def cartTotalItems (cart : Cart) : Nat :=
  (cart.items.map (fun it => it.quantity)).sum

/-- `Cart.calculate_shipping` (models.py 258–280). -/
def calculateShipping (books : List Book) (cart : Cart) : ℚ :=
  let subtotal := cartSubtotal books cart
  let total_items := cartTotalItems cart
  if subtotal ≥ 5000 then 0
  else
    let base_fee : ℚ := 50
    if total_items > 5 then base_fee + ((total_items - 5 : Nat) : ℚ) * 10
    else base_fee

/-- `Cart.coupon_discount` (models.py 215–222). -/
def cartCouponDiscount (books : List Book) (coupons : List Coupon) (now : Int)
    (cart : Cart) : ℚ :=
  match cart.applied_coupon with
  | some cid =>
    match findCoupon coupons cid with
    | some c =>
      if couponIsValid c now = true ∧ cartSubtotal books cart ≥ c.min_purchase then
        calculateDiscount c (cartSubtotal books cart)
      else 0
    | none => 0
  | none => 0

/-- The branch of `Cart.order_value_discount` (models.py 224–234) as a
function of the subtotal it reads. -/
def orderValueDiscountFn (subtotal : ℚ) : ℚ :=
  if subtotal ≥ 5000 then subtotal * (15 / 100)
  else if subtotal ≥ 2000 then subtotal * (10 / 100)
  else if subtotal ≥ 1000 then subtotal * (5 / 100)
  else 0

/-- `Cart.order_value_discount`. -/
def cartOrderValueDiscount (books : List Book) (cart : Cart) : ℚ :=
  orderValueDiscountFn (cartSubtotal books cart)

/-- The single tier rate picked by `Cart.order_value_discount`: the highest
threshold met determines the one rate applied. -/
def ovdRate (subtotal : ℚ) : ℚ :=
  if subtotal ≥ 5000 then 15 / 100
  else if subtotal ≥ 2000 then 10 / 100
  else if subtotal ≥ 1000 then 5 / 100
  else 0

/-- `Cart.first_time_discount` (models.py 236–241). -/
def cartFirstTimeDiscount (books : List Book) (customer : Customer)
    (cart : Cart) : ℚ :=
  if customer.is_first_time_buyer then cartSubtotal books cart * (15 / 100)
  else 0

/-- `Cart.total_discount` (models.py 243–246). -/
def cartTotalDiscount (books : List Book) (coupons : List Coupon) (now : Int)
    (customer : Customer) (cart : Cart) : ℚ :=
  cartCouponDiscount books coupons now cart
    + cartOrderValueDiscount books cart
    + cartFirstTimeDiscount books customer cart

/-- `Cart.total_amount` (models.py 248–251). -/
def cartTotalAmount (books : List Book) (coupons : List Coupon) (now : Int)
    (customer : Customer) (cart : Cart) : ℚ :=
  cartSubtotal books cart - cartTotalDiscount books coupons now customer cart
    + calculateShipping books cart

/-! ## `OrderItem.save` and the settlement item loop -/

/-- Failure modes of the settlement body; each one surfaces as the caught
exception of the enclosing view. -/
inductive SettleErr
  | insufficientStock (bookId : Nat)
  | missingBook (bookId : Nat)
  | missingCoupon (couponId : Nat)
  | duplicateUsage (couponId : Nat)
  deriving DecidableEq, Repr

/-- `OrderItem.save` (models.py 154–166): overwrites `unit_price` and
`subtotal` from the book row; for a new row (no `pk` yet) checks the stock
and decrements it, raising `ValidationError` (`none`) when the stock is
insufficient.  Returns the persisted row together with the (possibly
updated) book row.  `suppliedUnit` / `suppliedSub` are the caller-supplied
field values, present in the signature only to show they are discarded. -/
def orderItemSave (b : Book) (oid qty : Nat) (suppliedUnit suppliedSub : ℚ)
    (isNew : Bool) : Option (OrderItem × Book) :=
  let unit_price := b.price
  let subtotal := unit_price * qty
  if isNew then
    if b.stock ≥ qty then
      some (⟨oid, b.id, qty, unit_price, subtotal⟩, { b with stock := b.stock - qty })
    else none
  else
    some (⟨oid, b.id, qty, unit_price, subtotal⟩, b)

/-- The `for cart_item in cart_items: OrderItem.objects.create(...)` loop of
`checkout` (views.py 735–742) and `process_card_payment` (views.py
595–602).  Autocommit persists each successful save at once; a
`ValidationError` from `OrderItem.save` aborts the loop leaving the earlier
writes in place. -/
def itemsLoop (oid : Nat) : List CartItem → St → Option SettleErr × St
  | [], s => (none, s)
  | it :: rest, s =>
    match findBook s.books it.bookId with
    | none => (some (.missingBook it.bookId), s)
    | some b =>
      match orderItemSave b oid it.quantity b.price (cartItemSubtotal s.books it) true with
      | none => (some (.insufficientStock it.bookId), s)
      | some (oi, b2) =>
        itemsLoop oid rest
          { s with books := updateBook s.books b2, orderItems := s.orderItems ++ [oi] }

/-! ## Coupon redemption inside settlement -/

/-- The coupon-usage block of `checkout` (views.py 744–755) and
`process_card_payment` (views.py 604–615): `coupon.current_usage += 1;
coupon.save()` followed by `CouponUsage.objects.create(...)`.  The
`unique_together = (coupon, order)` constraint (models.py 87–88) makes the
insert fail when a usage row for the pair already exists; the increment was
already persisted at that point and autocommit keeps it. -/
def redeemCoupon (s : St) (cid oid : Nat) : Option SettleErr × St :=
  match findCoupon s.coupons cid with
  | none => (some (.missingCoupon cid), s)
  | some c =>
    let c2 := { c with current_usage := c.current_usage + 1 }
    let s1 := { s with coupons := updateCoupon s.coupons c2 }
    if s1.usages.any (fun u => u.couponId == cid && u.orderId == oid) then
      (some (.duplicateUsage cid), s1)
    else
      (none, { s1 with usages := s1.usages ++ [⟨cid, s.customer.id, oid⟩] })

/-! ## Order totals and the payment signal -/

/-- `Order.subtotal` (models.py 128–131). -/
def orderSubtotal (orderItems : List OrderItem) (oid : Nat) : ℚ :=
  ((orderItems.filter (fun oi => oi.orderId == oid)).map (fun oi => oi.subtotal)).sum

/-- `Order.total_discount` and `Order.total_amount` (models.py 133–141). -/
def orderTotalAmount (orderItems : List OrderItem) (o : Order) : ℚ :=
  orderSubtotal orderItems o.id
    - (o.coupon_discount + o.order_value_discount + o.first_time_discount)
    + o.shipping_fee

/-- `update_order_status` post-save signal (models.py 332–337): a paid
payment confirms a pending order. -/
def paymentSignal (orders : List Order) (p : Payment) : List Order :=
  if p.status = .Paid then
    orders.map (fun o =>
      if o.id = p.orderId ∧ o.status = .Pending then { o with status := .Confirmed } else o)
  else orders

/-! ## The settlement body shared by the cash and card paths -/

/-- The `Order.objects.create(...)` record of views.py 720–732 / 580–592,
with the pricing snapshot frozen from the cart. -/
def mkOrder (s : St) (now : Int) (oid : Nat) (d : Delivery) : Order :=
  { id := oid
    customerId := s.customer.id
    status := .Pending
    delivery_name := d.name
    delivery_phone := d.phone
    delivery_address := d.address
    delivery_notes := d.notes
    shipping_fee := calculateShipping s.books s.cart
    applied_coupon := s.cart.applied_coupon
    coupon_discount := cartCouponDiscount s.books s.coupons now s.cart
    order_value_discount := cartOrderValueDiscount s.books s.cart
    first_time_discount := cartFirstTimeDiscount s.books s.customer s.cart
    discount_code_used := (s.cart.applied_coupon.bind (findCoupon s.coupons)).map Coupon.code
    cancellation_reason := none
    cancelled_at := none }

/-- The settlement body shared by `checkout` (views.py 718–773, cash) and
`process_card_payment` (views.py 578–645, card): create the Order with the
frozen cart totals, create the OrderItems (decrementing stock), redeem the
applied coupon, clear the first-time-buyer flag, create the Payment
(`Unpaid`/`Cash` or `Paid`/`Card`; a paid payment confirms the order via
the post-save signal), then clear the cart.  Any step that raises returns
the partially mutated state, as autocommit leaves it. -/
def settle (s : St) (now : Int) (d : Delivery) (paid : Bool) : Option SettleErr × St :=
  let oid := s.nextOrderId
  let order := mkOrder s now oid d
  let s1 := { s with orders := s.orders ++ [order], nextOrderId := oid + 1 }
  match itemsLoop oid s.cart.items s1 with
  | (some e, s2) => (some e, s2)
  | (none, s2) =>
    match (match s2.cart.applied_coupon with
           | none => ((none : Option SettleErr), s2)
           | some cid => redeemCoupon s2 cid oid) with
    | (some e, s3) => (some e, s3)
    | (none, s3) =>
      let s4 :=
        if s3.customer.is_first_time_buyer then
          { s3 with customer := { s3.customer with is_first_time_buyer := false } }
        else s3
      let p : Payment :=
        { orderId := oid
          amount := orderTotalAmount s4.orderItems order
          method := if paid then .Card else .Cash
          status := if paid then .Paid else .Unpaid }
      let s5 := { s4 with payments := s4.payments ++ [p],
                          orders := paymentSignal s4.orders p }
      (none, { s5 with cart := { items := [], applied_coupon := none } })

/-! ## The cash checkout view -/

/-- Outcomes of the `checkout` view on the cash path. -/
inductive CheckoutResult
  | emptyCart
  | missingDelivery
  | errorCreatingOrder (e : SettleErr)
  | success (orderId : Nat)
  deriving DecidableEq, Repr

/-- `checkout` view (views.py 689–780), POST with `payment_method='Cash'`:
empty-cart guard, delivery-details guard, then the settlement body inside
`try/except` — a raised step reports an error but keeps every earlier
write. -/
def checkoutCash (s : St) (now : Int) (d : Delivery) : CheckoutResult × St :=
  if s.cart.items = [] then (.emptyCart, s)
  else if d.name = [] ∨ d.phone = [] ∨ d.address = [] then (.missingDelivery, s)
  else
    match settle s now d false with
    | (some e, s2) => (.errorCreatingOrder e, s2)
    | (none, s2) => (.success s.nextOrderId, s2)

/-! ## Card-field validation (views.py 400–472) -/

/-- The distinct validation failures of the card path, in source order. -/
inductive CardErr
  | missingFields
  | cardNumberNotDigits
  | cardNumberBadLength
  | cardNumberLuhn
  | expiryFormat
  | expiryBadMonth
  | expiryExpired
  | cvvNotDigits
  | cvvBadLength
  | holderTooShort
  deriving DecidableEq, Repr

/-- The Luhn loop of `validate_card_number`: `i` is the index in the
reversed digit string; digits at odd index are doubled and reduced. -/
def luhnGo : List Nat → Nat → Nat
  | [], _ => 0
  | c :: rest, i =>
    let n := digitVal c
    let n2 := if i % 2 == 1 then (if n * 2 > 9 then n * 2 - 9 else n * 2) else n
    n2 + luhnGo rest (i + 1)

/-- `total` computed by the inner `luhn_check` (views.py 415–425). -/
def luhnTotal (s : Str) : Nat := luhnGo s.reverse 0

/-- `validate_card_number` (views.py 401–430): remove spaces, digits only,
length 13–19, Luhn check. -/
def validateCardNumber (s : Str) : Option CardErr :=
  let n := s.filter (fun c => !(c == 32))
  if !(pyIsDigit n) then some .cardNumberNotDigits
  else if n.length < 13 ∨ n.length > 19 then some .cardNumberBadLength
  else if luhnTotal n % 10 ≠ 0 then some .cardNumberLuhn
  else none

/-- `validate_expiry_date` (views.py 433–461).  `nowYear`/`nowMonth` stand
for `timezone.now()`. -/
def validateExpiry (month year : Str) (nowYear nowMonth : Int) : Option CardErr :=
  match parseInt month, parseInt year with
  | some m, some y =>
    if m < 1 ∨ m > 12 then some .expiryBadMonth
    else
      let y2 := if y < 100 then (nowYear / 100) * 100 + y else y
      if y2 < nowYear then some .expiryExpired
      else if y2 = nowYear ∧ m < nowMonth then some .expiryExpired
      else none
  | _, _ => some .expiryFormat

/-- `validate_cvv` (views.py 464–472). -/
def validateCvv (s : Str) : Option CardErr :=
  if !(pyIsDigit s) then some .cvvNotDigits
  else if s.length ≠ 3 ∧ s.length ≠ 4 then some .cvvBadLength
  else none

/-- The validation prefix of `process_card_payment` (views.py 549–576):
all fields present (card and delivery), card number, expiry date, CVV,
holder-name length — in source order, first failure returned.  Fields
arrive already stripped, as in the view. -/
def cardChecks (cardNumber cardHolder expMonth expYear cvv : Str)
    (d : Delivery) (nowYear nowMonth : Int) : Option CardErr :=
  if cardNumber = [] ∨ cardHolder = [] ∨ expMonth = [] ∨ expYear = [] ∨ cvv = [] ∨
      d.name = [] ∨ d.phone = [] ∨ d.address = [] then some .missingFields
  else
    match validateCardNumber cardNumber with
    | some e => some e
    | none =>
      match validateExpiry expMonth expYear nowYear nowMonth with
      | some e => some e
      | none =>
        match validateCvv cvv with
        | some e => some e
        | none => if cardHolder.length < 3 then some .holderTooShort else none

/-- Outcomes of `process_card_payment`. -/
inductive CardResult
  | emptyCart
  | validationFailed (e : CardErr)
  | errorProcessing (e : SettleErr)
  | success (orderId : Nat)
  deriving DecidableEq, Repr

/-- `process_card_payment` (views.py 524–658): empty-cart guard, the whole
validation prefix, and only then the mutating settlement body (with a paid
payment). -/
def processCardPayment (s : St) (now nowYear nowMonth : Int)
    (cardNumber cardHolder expMonth expYear cvv : Str) (d : Delivery) :
    CardResult × St :=
  if s.cart.items = [] then (.emptyCart, s)
  else
    match cardChecks cardNumber cardHolder expMonth expYear cvv d nowYear nowMonth with
    | some e => (.validationFailed e, s)
    | none =>
      match settle s now d true with
      | (some e, s2) => (.errorProcessing e, s2)
      | (none, s2) => (.success s.nextOrderId, s2)

/-! ## Order cancellation (views.py 317–362) -/

/-- Outcomes of `cancel_order`. -/
inductive CancelResult
  | notFound
  | notCancellable
  | ok
  deriving DecidableEq, Repr

/-- Stock increment of one order item during cancellation
(`order_item.book.stock += order_item.quantity; book.save()`). -/
def incB (p : Nat × Nat) (books : List Book) : List Book :=
  books.map (fun b => if b.id = p.1 then { b with stock := b.stock + p.2 } else b)

/-- The stock-restoring loop of `cancel_order` (views.py 335–337). -/
def restoreLoop : List OrderItem → List Book → List Book
  | [], books => books
  | oi :: rest, books => restoreLoop rest (incB (oi.bookId, oi.quantity) books)

/-- The coupon-usage decrement of `cancel_order` (views.py 340–342). -/
def couponDec (cs : List Coupon) (cid : Nat) : List Coupon :=
  cs.map (fun c => if c.id = cid then { c with current_usage := c.current_usage - 1 } else c)

/-- `cancel_order` (views.py 317–362), POST branch: refuse unless the order
status is Pending or Confirmed; otherwise restore stock for every order
item, reverse the coupon usage when a coupon was applied (decrement and
delete the usage rows of the order), and mark the order Cancelled with the
stripped reason (empty becomes `None`) and the cancellation instant. -/
def cancelOrder (s : St) (oid : Nat) (reasonInput : Str) (now : Int) :
    CancelResult × St :=
  match s.orders.find? (fun o => o.id == oid) with
  | none => (.notFound, s)
  | some o =>
    if o.status ≠ .Pending ∧ o.status ≠ .Confirmed then (.notCancellable, s)
    else
      let reason := pyStrip reasonInput
      let books2 := restoreLoop (s.orderItems.filter (fun oi => oi.orderId == oid)) s.books
      let cu : List Coupon × List CouponUsage :=
        match o.applied_coupon with
        | some cid => (couponDec s.coupons cid, s.usages.filter (fun u => !(u.orderId == oid)))
        | none => (s.coupons, s.usages)
      let orders2 := s.orders.map (fun x =>
        if x.id = oid then
          { x with status := .Cancelled,
                   cancellation_reason := if reason = [] then none else some reason,
                   cancelled_at := some now }
        else x)
      (.ok, { s with books := books2, coupons := cu.1, usages := cu.2, orders := orders2 })

/-! ## Coupon application to the cart (views.py 203–239) -/

/-- Outcomes of `apply_coupon`. -/
inductive ApplyResult
  | missingCode
  | invalidCode
  | notValid (r : CouponInvalidReason)
  | belowMinPurchase
  | applied
  deriving DecidableEq, Repr

/-- The submitted `coupon_code`, stripped and upper-cased (views.py 206). -/
def processedCode (input : Str) : Str := pyUpper (pyStrip input)

/-- `apply_coupon` (views.py 203–239): strip and uppercase the submitted
code, reject an empty result, look the coupon up by exact code match,
validate it, check the minimum purchase, then attach it to the cart. -/
def applyCoupon (s : St) (now : Int) (input : Str) : ApplyResult × St :=
  let code := processedCode input
  if code = [] then (.missingCode, s)
  else
    match s.coupons.find? (fun c => c.code == code) with
    | none => (.invalidCode, s)
    | some c =>
      match couponValidate c now with
      | some r => (.notValid r, s)
      | none =>
        if cartSubtotal s.books s.cart < c.min_purchase then (.belowMinPurchase, s)
        else (.applied, { s with cart := { s.cart with applied_coupon := some c.id } })

/-! ## Concrete rows and states used by evaluation theorems and witnesses -/

/-- Non-empty delivery details (name `A`, phone `1`, address `B`). -/
def dOk : Delivery := ⟨[65], [49], [66], none⟩

/-- Scenario for C1: two cart items; the second book has no stock. -/
def stC1 : St :=
  { books := [⟨1, 100, 10⟩, ⟨2, 200, 0⟩]
    coupons := []
    customer := ⟨1, false⟩
    cart := { items := [⟨1, 1⟩, ⟨2, 1⟩], applied_coupon := none }
    orders := []
    orderItems := []
    payments := []
    usages := []
    nextOrderId := 0 }

/-- An active fixed-amount coupon (code `SAVE`, value 10, no minimum). -/
def couponSave : Coupon := ⟨7, [83, 65, 86, 69], .fixed, 10, 100, 0, 0, 100, true⟩

/-- Scenario for the C2 counterexample: a usage row for (coupon 7, order 0)
already exists when redemption for that same pair is attempted. -/
def stC2 : St :=
  { books := []
    coupons := [couponSave]
    customer := ⟨1, false⟩
    cart := { items := [], applied_coupon := none }
    orders := []
    orderItems := []
    payments := []
    usages := [⟨7, 1, 0⟩]
    nextOrderId := 1 }

/-- Scenario for the C2/C3 witnesses: a settleable cart with coupon 7
applied and sufficient stock. -/
def stC3 : St :=
  { books := [⟨1, 100, 5⟩]
    coupons := [couponSave]
    customer := ⟨1, true⟩
    cart := { items := [⟨1, 2⟩], applied_coupon := some 7 }
    orders := []
    orderItems := []
    payments := []
    usages := []
    nextOrderId := 0 }

/-- A valid 200% percentage coupon, used for the C4 witness. -/
def couponBig : Coupon := ⟨7, [66, 73, 71], .percentage, 200, 100, 0, 0, 100, true⟩

/-- Scenario for the C4 witness: subtotal 1000 with a 200% coupon, a
first-time buyer and tier-1 order-value discount. -/
def stC4 : St :=
  { books := [⟨1, 1000, 10⟩]
    coupons := [couponBig]
    customer := ⟨1, true⟩
    cart := { items := [⟨1, 1⟩], applied_coupon := some 7 }
    orders := []
    orderItems := []
    payments := []
    usages := []
    nextOrderId := 0 }

/-- A fixed coupon worth 1000, used for the C5 witness. -/
def couponFix1000 : Coupon := ⟨7, [70, 73, 88], .fixed, 1000, 100, 0, 0, 100, true⟩

/-- Books and cart for the C5 witness: subtotal 600. -/
def booksC5 : List Book := [⟨1, 600, 5⟩]

/-- Cart for the C5 witness. -/
def cartC5 : Cart := { items := [⟨1, 1⟩], applied_coupon := some 7 }

/-- Shipping example: subtotal exactly 5000. -/
def booksS1 : List Book := [⟨1, 5000, 10⟩]

/-- Shipping example cart: one item. -/
def cartS1 : Cart := { items := [⟨1, 1⟩], applied_coupon := none }

/-- Shipping example: subtotal 4999 with 5 items. -/
def booksS2 : List Book := [⟨1, 4999 / 5, 10⟩]

/-- Shipping example cart: five items. -/
def cartS2 : Cart := { items := [⟨1, 5⟩], applied_coupon := none }

/-- Shipping example: subtotal 4999 with 8 items across two books. -/
def booksS3 : List Book := [⟨1, 62488 / 100, 10⟩, ⟨2, 62487 / 100, 10⟩]

/-- Shipping example cart: eight items. -/
def cartS3 : Cart := { items := [⟨1, 4⟩, ⟨2, 4⟩], applied_coupon := none }

/-- Book row for the C9 witness. -/
def bookC9 : Book := ⟨1, 100, 5⟩

/-- Persisted order item produced by the C9 witness save. -/
def oiC9 : OrderItem := ⟨0, 1, 2, 100, 200⟩

/-- Book row after the C9 witness save decremented the stock. -/
def bookC9b : Book := ⟨1, 100, 3⟩

/-- A Luhn-valid Visa test number, as character codes. -/
def cardNumOk : Str := [52, 49, 49, 49, 49, 49, 49, 49, 49, 49, 49, 49, 49, 49, 49, 49]

/-- A coupon whose stored code `abc` contains lower-case letters. -/
def couponLower : Coupon := ⟨7, [97, 98, 99], .fixed, 10, 100, 0, 0, 100, true⟩

/-- Scenario for C10: the registry holds only the lower-case-coded
coupon. -/
def stC10 : St :=
  { books := []
    coupons := [couponLower]
    customer := ⟨1, false⟩
    cart := { items := [], applied_coupon := none }
    orders := []
    orderItems := []
    payments := []
    usages := []
    nextOrderId := 0 }

/-- Successive stock increments, keyed by (book id, quantity) pairs. -/
def incAll (ks : List (Nat × Nat)) (bs : List Book) : List Book :=
  ks.foldl (fun x k => incB k x) bs

/-- Projection of usage rows to their unique-constraint keys. -/
def usagePairs (l : List CouponUsage) : List (Nat × Nat) :=
  l.map (fun u => (u.couponId, u.orderId))

/-- A state holding one shipped order, for the cancellation precondition
witness. -/
def stShip : St :=
  { books := [⟨1, 100, 5⟩]
    coupons := []
    customer := ⟨1, false⟩
    cart := { items := [], applied_coupon := none }
    orders := [{ id := 0, customerId := 1, status := .Shipped, delivery_name := [65],
                 delivery_phone := [49], delivery_address := [66], delivery_notes := none,
                 shipping_fee := 0, applied_coupon := none, coupon_discount := 0,
                 order_value_discount := 0, first_time_discount := 0,
                 discount_code_used := none, cancellation_reason := none,
                 cancelled_at := none }]
    orderItems := []
    payments := []
    usages := []
    nextOrderId := 1 }

/-! ## Pricing theorems -/

/-- C4: for every cart state, `first_time_discount` is 15% of the subtotal
exactly when the customer is flagged as first-time buyer and 0 otherwise;
`total_discount` is the sum of the coupon, order-value and first-time
discounts (all three stack); `total_amount` is subtotal minus total
discount plus shipping with no floor at zero, so it is negative whenever
the total discount exceeds subtotal plus shipping. -/
theorem c4_totals_stack_no_floor :
    (∀ books customer cart,
      cartFirstTimeDiscount books customer cart
        = if customer.is_first_time_buyer then cartSubtotal books cart * (15 / 100) else 0) ∧
    (∀ books coupons now customer cart,
      cartTotalDiscount books coupons now customer cart
        = cartCouponDiscount books coupons now cart + cartOrderValueDiscount books cart
            + cartFirstTimeDiscount books customer cart) ∧
    (∀ books coupons now customer cart,
      cartTotalAmount books coupons now customer cart
        = cartSubtotal books cart - cartTotalDiscount books coupons now customer cart
            + calculateShipping books cart) ∧
    (∀ books coupons now customer cart,
      cartSubtotal books cart + calculateShipping books cart
          < cartTotalDiscount books coupons now customer cart →
        cartTotalAmount books coupons now customer cart < 0) := by
  refine ⟨fun _ _ _ => rfl, fun _ _ _ _ _ => rfl, fun _ _ _ _ _ => rfl, ?_⟩
  intro books coupons now customer cart h
  unfold cartTotalAmount
  linarith

/-- Witness for C4 at a concrete state: subtotal 1000, shipping 50, total
discount 2200 (200% coupon + 5% tier + 15% first-time), total −1150. -/
theorem c4_witness :
    cartSubtotal stC4.books stC4.cart + calculateShipping stC4.books stC4.cart
        < cartTotalDiscount stC4.books stC4.coupons 0 stC4.customer stC4.cart
      ∧ cartTotalAmount stC4.books stC4.coupons 0 stC4.customer stC4.cart < 0 := by
  have h : cartSubtotal stC4.books stC4.cart + calculateShipping stC4.books stC4.cart
      < cartTotalDiscount stC4.books stC4.coupons 0 stC4.customer stC4.cart := by
    norm_num [stC4, couponBig, cartSubtotal, cartItemSubtotal, findBook, calculateShipping,
      cartTotalItems, cartTotalDiscount, cartCouponDiscount, findCoupon, couponIsValid,
      couponValidate, calculateDiscount, cartOrderValueDiscount, orderValueDiscountFn,
      cartFirstTimeDiscount]
  exact ⟨h, c4_totals_stack_no_floor.2.2.2 stC4.books stC4.coupons 0 stC4.customer stC4.cart h⟩

/-- C5: `coupon_discount` is 0 unless a coupon is applied, found, currently
valid and the subtotal reaches its minimum purchase; when all hold, a fixed
coupon yields `min(discount_value, subtotal)` (never exceeding the
subtotal) and a percentage coupon yields `subtotal × discount_value /
100`. -/
theorem c5_coupon_discount_formula :
    (∀ books coupons now cart, cart.applied_coupon = none →
        cartCouponDiscount books coupons now cart = 0) ∧
    (∀ books coupons now cart cid, cart.applied_coupon = some cid →
        findCoupon coupons cid = none → cartCouponDiscount books coupons now cart = 0) ∧
    (∀ books coupons now cart cid c, cart.applied_coupon = some cid →
        findCoupon coupons cid = some c →
        ¬(couponIsValid c now = true ∧ cartSubtotal books cart ≥ c.min_purchase) →
        cartCouponDiscount books coupons now cart = 0) ∧
    (∀ books coupons now cart cid c, cart.applied_coupon = some cid →
        findCoupon coupons cid = some c →
        couponIsValid c now = true → cartSubtotal books cart ≥ c.min_purchase →
        (c.discount_type = .fixed →
          cartCouponDiscount books coupons now cart
              = min c.discount_value (cartSubtotal books cart)
            ∧ cartCouponDiscount books coupons now cart ≤ cartSubtotal books cart) ∧
        (c.discount_type = .percentage →
          cartCouponDiscount books coupons now cart
              = cartSubtotal books cart * c.discount_value / 100)) := by
  refine ⟨?_, ?_, ?_, ?_⟩
  · intro books coupons now cart h
    simp [cartCouponDiscount, h]
  · intro books coupons now cart cid h1 h2
    simp [cartCouponDiscount, h1, h2]
  · intro books coupons now cart cid c h1 h2 h3
    simp only [cartCouponDiscount, h1, h2]
    rw [if_neg h3]
  · intro books coupons now cart cid c h1 h2 h3 h4
    constructor
    · intro hf
      have hd : cartCouponDiscount books coupons now cart
          = min c.discount_value (cartSubtotal books cart) := by
        simp only [cartCouponDiscount, h1, h2]
        rw [if_pos ⟨h3, h4⟩]
        simp [calculateDiscount, hf]
      exact ⟨hd, hd ▸ min_le_right _ _⟩
    · intro hp
      simp only [cartCouponDiscount, h1, h2]
      rw [if_pos ⟨h3, h4⟩]
      simp [calculateDiscount, hp]

/-- Witness for C5 at the concrete example of the specification:
`discount_value = 1000`, subtotal 600 — the discount is capped at 600. -/
theorem c5_witness :
    cartCouponDiscount booksC5 [couponFix1000] 0 cartC5
        = min couponFix1000.discount_value (cartSubtotal booksC5 cartC5)
      ∧ cartCouponDiscount booksC5 [couponFix1000] 0 cartC5 ≤ cartSubtotal booksC5 cartC5
      ∧ min couponFix1000.discount_value (cartSubtotal booksC5 cartC5) = 600 := by
  have hsub : cartSubtotal booksC5 cartC5 = 600 := by
    norm_num [cartSubtotal, cartItemSubtotal, findBook, booksC5, cartC5]
  have hmin : cartSubtotal booksC5 cartC5 ≥ couponFix1000.min_purchase := by
    rw [hsub]; norm_num [couponFix1000]
  have h := (c5_coupon_discount_formula.2.2.2 booksC5 [couponFix1000] 0 cartC5 7 couponFix1000
      rfl rfl (by decide) hmin).1 rfl
  refine ⟨h.1, h.2, ?_⟩
  rw [hsub, min_def]
  norm_num [couponFix1000]

/-- C6: `order_value_discount` applies exactly one rate, picked by the
highest threshold met (15% from 5000, 10% from 2000, 5% from 1000, 0
below 1000), so as a function of the subtotal it is a monotone piecewise
scaling with breakpoints exactly at 1000, 2000 and 5000, never a sum of
several tiers. -/
theorem c6_order_value_discount_single_tier :
    (∀ books cart, cartOrderValueDiscount books cart
        = ovdRate (cartSubtotal books cart) * cartSubtotal books cart) ∧
    (∀ S : ℚ, orderValueDiscountFn S = ovdRate S * S) ∧
    (∀ S : ℚ, (5000 ≤ S → ovdRate S = 15 / 100)
      ∧ (2000 ≤ S → S < 5000 → ovdRate S = 10 / 100)
      ∧ (1000 ≤ S → S < 2000 → ovdRate S = 5 / 100)
      ∧ (S < 1000 → ovdRate S = 0)) ∧
    (∀ S T : ℚ, S ≤ T → orderValueDiscountFn S ≤ orderValueDiscountFn T) := by
  have hfn : ∀ S : ℚ, orderValueDiscountFn S = ovdRate S * S := by
    intro S
    unfold orderValueDiscountFn ovdRate
    split_ifs <;> ring
  refine ⟨fun books cart => hfn _, hfn, ?_, ?_⟩
  · intro S
    refine ⟨?_, ?_, ?_, ?_⟩ <;> unfold ovdRate
    · intro h; split_ifs <;> first | rfl | linarith
    · intro h1 h2; split_ifs <;> first | rfl | linarith
    · intro h1 h2; split_ifs <;> first | rfl | linarith
    · intro h; split_ifs <;> first | rfl | linarith
  · intro S T h
    unfold orderValueDiscountFn
    split_ifs <;> linarith

/-- Witness for C6 at concrete subtotals: 6000 sits in the single 15%
tier, the step is monotone across the 1000 breakpoint, and 5000 picks only
the highest rate. -/
theorem c6_witness :
    orderValueDiscountFn 6000 = ovdRate 6000 * 6000
      ∧ orderValueDiscountFn 999 ≤ orderValueDiscountFn 1000
      ∧ ovdRate 5000 = 15 / 100
      ∧ ovdRate 6000 * 6000 = 900 :=
  ⟨c6_order_value_discount_single_tier.2.1 6000,
   c6_order_value_discount_single_tier.2.2.2 999 1000 (by norm_num),
   (c6_order_value_discount_single_tier.2.2.1 5000).1 (by norm_num),
   by norm_num [ovdRate]⟩

/-- C7: shipping is free from subtotal 5000; below that it is the base fee
50 plus, when the item count exceeds 5, an extra 10 per item above 5. -/
theorem c7_shipping_fee_rule :
    (∀ books cart, 5000 ≤ cartSubtotal books cart → calculateShipping books cart = 0) ∧
    (∀ books cart, cartSubtotal books cart < 5000 → cartTotalItems cart ≤ 5 →
        calculateShipping books cart = 50) ∧
    (∀ books cart, cartSubtotal books cart < 5000 → 5 < cartTotalItems cart →
        calculateShipping books cart
          = 50 + ((cartTotalItems cart - 5 : Nat) : ℚ) * 10) := by
  refine ⟨?_, ?_, ?_⟩
  · intro books cart h
    unfold calculateShipping
    rw [if_pos h]
  · intro books cart h1 h2
    unfold calculateShipping
    rw [if_neg (by linarith), if_neg (by omega)]
  · intro books cart h1 h2
    unfold calculateShipping
    rw [if_neg (by linarith), if_pos h2]

/-- Witness for C7 at the three examples of the specification: subtotal
5000 ships free; subtotal 4999 with 5 items costs 50; subtotal 4999 with 8
items costs 80. -/
theorem c7_witness :
    calculateShipping booksS1 cartS1 = 0
      ∧ calculateShipping booksS2 cartS2 = 50
      ∧ calculateShipping booksS3 cartS3 = 80 := by
  have h1 : (5000 : ℚ) ≤ cartSubtotal booksS1 cartS1 := by
    norm_num [cartSubtotal, cartItemSubtotal, findBook, booksS1, cartS1]
  have h2 : cartSubtotal booksS2 cartS2 < 5000 := by
    norm_num [cartSubtotal, cartItemSubtotal, findBook, booksS2, cartS2]
  have h3 : cartSubtotal booksS3 cartS3 < 5000 := by
    norm_num [cartSubtotal, cartItemSubtotal, findBook, booksS3, cartS3]
  refine ⟨c7_shipping_fee_rule.1 booksS1 cartS1 h1,
          c7_shipping_fee_rule.2.1 booksS2 cartS2 h2 (by decide), ?_⟩
  rw [c7_shipping_fee_rule.2.2 booksS3 cartS3 h3 (by decide)]
  norm_num [cartTotalItems, cartS3]

/-- C9: `OrderItem.save` discards any caller-supplied `unit_price` and
`subtotal`, persisting the unit price as the current book price and the
subtotal as that price times the quantity, so every persisted order item
satisfies the invariant. -/
theorem c9_order_item_save_overwrites :
    (∀ b oid qty u1 su1 u2 su2 isNew,
        orderItemSave b oid qty u1 su1 isNew = orderItemSave b oid qty u2 su2 isNew) ∧
    (∀ b oid qty u su isNew oi b2, orderItemSave b oid qty u su isNew = some (oi, b2) →
        oi.unit_price = b.price ∧ oi.subtotal = b.price * oi.quantity
          ∧ oi.subtotal = oi.unit_price * oi.quantity ∧ oi.quantity = qty) := by
  constructor
  · intro b oid qty u1 su1 u2 su2 isNew
    rfl
  · intro b oid qty u su isNew oi b2 h
    unfold orderItemSave at h
    cases isNew with
    | true =>
      by_cases hs : b.stock ≥ qty
      · rw [if_pos rfl, if_pos hs] at h
        obtain ⟨h1, h2⟩ := Prod.mk.injEq .. ▸ (Option.some.injEq .. ▸ h)
        subst h1
        exact ⟨rfl, rfl, rfl, rfl⟩
      · rw [if_pos rfl, if_neg hs] at h
        exact absurd h (by simp)
    | false =>
      rw [if_neg (by simp)] at h
      obtain ⟨h1, h2⟩ := Prod.mk.injEq .. ▸ (Option.some.injEq .. ▸ h)
      subst h1
      exact ⟨rfl, rfl, rfl, rfl⟩

/-- Witness for C9: saving a new order item for book 1 (price 100, stock
5) with junk supplied values 77/88 persists unit price 100 and subtotal
200 and decrements the stock. -/
theorem c9_witness :
    oiC9.unit_price = bookC9.price ∧ oiC9.subtotal = bookC9.price * oiC9.quantity
      ∧ oiC9.subtotal = oiC9.unit_price * oiC9.quantity ∧ oiC9.quantity = 2 :=
  c9_order_item_save_overwrites.2 bookC9 0 2 77 88 true oiC9 bookC9b
    (by norm_num [orderItemSave, bookC9, bookC9b, oiC9])

/-! ## C1: settlement is not all-or-nothing -/

/-- C1: evaluating the cash checkout on a two-item cart whose second book
has no stock: settlement aborts with insufficient stock, yet the first
book has already lost one unit (10 → 9) and the Order record persists
(with no Payment) — the view opens no transaction, so the writes made
before the failing item survive, refuting the all-or-nothing claim. -/
theorem c1_settlement_partial_commit :
    (checkoutCash stC1 0 dOk).1 = .errorCreatingOrder (.insufficientStock 2)
      ∧ (checkoutCash stC1 0 dOk).2.books.map Book.stock = [9, 0]
      ∧ (checkoutCash stC1 0 dOk).2.orders.length = 1
      ∧ (checkoutCash stC1 0 dOk).2.payments = [] := by
  norm_num [checkoutCash, settle, mkOrder, itemsLoop, orderItemSave, findBook, updateBook,
    cartItemSubtotal, cartSubtotal, cartCouponDiscount, cartOrderValueDiscount,
    orderValueDiscountFn, cartFirstTimeDiscount, calculateShipping, cartTotalItems,
    stC1, dOk, redeemCoupon, findCoupon, paymentSignal, orderTotalAmount, orderSubtotal,
    List.cons_ne_nil]

/-! ## C8: card validation happens before any mutation -/

/-- C8: on the card path, whenever any of the validations (presence of all
fields, Luhn card number, expiry not past, CVV shape, holder-name length)
fails, `process_card_payment` returns that validation error and the state
is unchanged — no Order, OrderItem, Payment, stock, coupon-usage or cart
mutation happens. -/
theorem c8_card_validation_before_mutation :
    ∀ (s : St) (now nowYear nowMonth : Int) (cn ch em ey cv : Str) (d : Delivery)
      (e : CardErr),
      s.cart.items ≠ [] →
      cardChecks cn ch em ey cv d nowYear nowMonth = some e →
      processCardPayment s now nowYear nowMonth cn ch em ey cv d
        = (.validationFailed e, s) := by
  intro s now ny nm cn ch em ey cv d e hne hchk
  unfold processCardPayment
  rw [if_neg hne, hchk]

/-- Witness for C8: a Luhn-valid card with a two-letter holder name fails
the holder-length validation and leaves the C1 state untouched. -/
theorem c8_witness :
    cardChecks cardNumOk [65, 66] [49, 50] [50, 48, 57, 57] [49, 50, 51] dOk 2026 10
        = some .holderTooShort
      ∧ processCardPayment stC1 0 2026 10 cardNumOk [65, 66] [49, 50] [50, 48, 57, 57]
          [49, 50, 51] dOk = (.validationFailed .holderTooShort, stC1) :=
  ⟨by decide,
   c8_card_validation_before_mutation stC1 0 2026 10 cardNumOk [65, 66] [49, 50]
     [50, 48, 57, 57] [49, 50, 51] dOk .holderTooShort (by decide) (by decide)⟩

/-! ## C2 counterexample: the duplicate-usage increment is persisted -/

/-- C2 counterexample: with a usage row for (coupon 7, order 0) already
present, attempting the redemption block for that same pair fails on the
unique constraint, but `current_usage` has gone from 0 to 1 — it is not
left unchanged, because the counter increment is saved before the insert
is attempted and no transaction rolls it back. -/
theorem c2_counterexample :
    (redeemCoupon stC2 7 0).1 = some (.duplicateUsage 7)
      ∧ (findCoupon (redeemCoupon stC2 7 0).2.coupons 7).map Coupon.current_usage = some 1
      ∧ (findCoupon stC2.coupons 7).map Coupon.current_usage = some 0 :=
  ⟨rfl, rfl, rfl⟩

/-! ## C10: coupon-code processing -/

/-- Upper-casing never makes a character a lower-case letter. -/
theorem isLowerCode_upperCode (c : Nat) : isLowerCode (upperCode c) = false := by
  unfold upperCode isLowerCode
  split_ifs with h
  · simp only [Bool.and_eq_true, decide_eq_true_eq] at h
    simp only [Bool.and_eq_true, decide_eq_true_eq, Bool.and_eq_false_iff]
    left
    simp only [decide_eq_false_iff_not]
    omega
  · simp only [isLowerCode] at h
    exact Bool.not_eq_true _ ▸ (by simpa using h)

/-- Upper-casing preserves the whitespace test. -/
theorem isSpaceCode_upperCode (c : Nat) : isSpaceCode (upperCode c) = isSpaceCode c := by
  unfold upperCode
  split_ifs with h
  · unfold isLowerCode at h
    simp only [Bool.and_eq_true, decide_eq_true_eq] at h
    have h1 : isSpaceCode (c - 32) = false := by
      unfold isSpaceCode
      simp only [Bool.or_eq_false_iff, beq_eq_false_iff_ne, ne_eq]
      omega
    have h2 : isSpaceCode c = false := by
      unfold isSpaceCode
      simp only [Bool.or_eq_false_iff, beq_eq_false_iff_ne, ne_eq]
      omega
    rw [h1, h2]
  · rfl

/-- Upper-casing is idempotent on characters. -/
theorem upperCode_upperCode (c : Nat) : upperCode (upperCode c) = upperCode c := by
  unfold upperCode isLowerCode
  split_ifs with h1 h2 <;> try rfl
  simp only [Bool.and_eq_true, decide_eq_true_eq] at h1 h2
  omega

/-- Stripping commutes with upper-casing. -/
theorem pyStrip_pyUpper (s : Str) : pyStrip (pyUpper s) = pyUpper (pyStrip s) := by
  have hcomp : isSpaceCode ∘ upperCode = isSpaceCode := funext isSpaceCode_upperCode
  unfold pyStrip pyUpper
  rw [List.dropWhile_map, hcomp, ← List.map_reverse, List.dropWhile_map, hcomp,
    ← List.map_reverse]

/-- Processing the code is insensitive to prior upper-casing of the
submission. -/
theorem processedCode_pyUpper (s : Str) : processedCode (pyUpper s) = processedCode s := by
  unfold processedCode
  rw [pyStrip_pyUpper]
  unfold pyUpper
  rw [List.map_map]
  exact List.map_congr_left (fun a _ => upperCode_upperCode a)

/-- Every character of a processed code is non-lower-case. -/
theorem processedCode_not_lower (input : Str) :
    ∀ ch ∈ processedCode input, isLowerCode ch = false := by
  intro ch hch
  unfold processedCode pyUpper at hch
  obtain ⟨a, _, ha⟩ := List.mem_map.mp hch
  exact ha ▸ isLowerCode_upperCode a

/-- C10 (amended): `apply_coupon` strips whitespace and upper-cases the
submitted code before an exact-match lookup, so the outcome depends only
on the processed code (case-insensitive in the submitted letters); a
coupon whose stored code contains a lower-case letter is never returned by
the lookup, hence can never be applied; when every registered code
contains a lower-case letter, any submission whose stripped form is
non-empty gets the invalid-code error — but a whitespace-only submission
gets the missing-code error instead. -/
theorem c10_uppercased_exact_lookup :
    (∀ (s : St) (now : Int) i1 i2, processedCode i1 = processedCode i2 →
        applyCoupon s now i1 = applyCoupon s now i2) ∧
    (∀ input, processedCode (pyUpper input) = processedCode input) ∧
    (∀ (s : St) input c, c ∈ s.coupons → (∃ ch ∈ c.code, isLowerCode ch = true) →
        s.coupons.find? (fun x => x.code == processedCode input) ≠ some c) ∧
    (∀ (s : St) (now : Int) input, (∀ c ∈ s.coupons, ∃ ch ∈ c.code, isLowerCode ch = true) →
        pyStrip input ≠ [] → applyCoupon s now input = (.invalidCode, s)) ∧
    (∀ (s : St) (now : Int) input, pyStrip input = [] →
        applyCoupon s now input = (.missingCode, s)) := by
  have hnever : ∀ (s : St) input c, c ∈ s.coupons →
      (∃ ch ∈ c.code, isLowerCode ch = true) →
      s.coupons.find? (fun x => x.code == processedCode input) ≠ some c := by
    intro s input c _ hlow hfind
    have hbeq := List.find?_some hfind
    have hcode : c.code = processedCode input := by
      simpa using hbeq
    obtain ⟨ch, hmem, hl⟩ := hlow
    have := processedCode_not_lower input ch (hcode ▸ hmem)
    rw [hl] at this
    exact Bool.noConfusion this
  refine ⟨?_, processedCode_pyUpper, hnever, ?_, ?_⟩
  · intro s now i1 i2 h
    unfold applyCoupon
    rw [h]
  · intro s now input hall hne
    have hce : processedCode input ≠ [] := by
      unfold processedCode pyUpper
      simpa [List.map_eq_nil_iff] using hne
    have hfind : s.coupons.find? (fun x => x.code == processedCode input) = none := by
      rw [List.find?_eq_none]
      intro c hc hbeq
      have hcode : c.code = processedCode input := by simpa using hbeq
      obtain ⟨ch, hmem, hl⟩ := hall c hc
      have := processedCode_not_lower input ch (hcode ▸ hmem)
      rw [hl] at this
      exact Bool.noConfusion this
    unfold applyCoupon
    rw [if_neg hce, hfind]
  · intro s now input h
    have hce : processedCode input = [] := by
      unfold processedCode
      rw [h]
      rfl
    unfold applyCoupon
    rw [hce, if_pos rfl]

/-- C10 counterexample: with the registry holding only the coupon whose
stored code is `abc` (a code with lower-case letters), a whitespace-only
submission returns the missing-code error, not the invalid-code error the
claim promises for every possible input. -/
theorem c10_counterexample :
    applyCoupon stC10 0 [32] = (.missingCode, stC10)
      ∧ ApplyResult.missingCode ≠ ApplyResult.invalidCode :=
  ⟨rfl, by decide⟩

/-- Witness for C10: in the registry holding only the coupon coded `abc`,
`a` and `A` are processed alike, `X` draws the invalid-code error, and a
whitespace-only submission draws the missing-code error. -/
theorem c10_witness :
    applyCoupon stC10 0 [97] = applyCoupon stC10 0 [65]
      ∧ applyCoupon stC10 0 [88] = (.invalidCode, stC10)
      ∧ applyCoupon stC10 0 [9] = (.missingCode, stC10) :=
  ⟨c10_uppercased_exact_lookup.1 stC10 0 [97] [65] (by decide),
   c10_uppercased_exact_lookup.2.2.2.1 stC10 0 [88] (by decide) (by decide),
   c10_uppercased_exact_lookup.2.2.2.2 stC10 0 [9] (by decide)⟩

/-! ## Framing and characterization lemmas for settlement -/

/-- The item-creation loop only touches the book and order-item tables. -/
theorem itemsLoop_frame (oid : Nat) (items : List CartItem) (s : St) :
    (itemsLoop oid items s).2.coupons = s.coupons
      ∧ (itemsLoop oid items s).2.usages = s.usages
      ∧ (itemsLoop oid items s).2.orders = s.orders
      ∧ (itemsLoop oid items s).2.payments = s.payments
      ∧ (itemsLoop oid items s).2.cart = s.cart
      ∧ (itemsLoop oid items s).2.customer = s.customer
      ∧ (itemsLoop oid items s).2.nextOrderId = s.nextOrderId := by
  induction items generalizing s with
  | nil => exact ⟨rfl, rfl, rfl, rfl, rfl, rfl, rfl⟩
  | cons it rest ih =>
    rcases hfb : findBook s.books it.bookId with _ | b
    · simp [itemsLoop, hfb]
    · rcases hos : orderItemSave b oid it.quantity b.price (cartItemSubtotal s.books it) true
        with _ | ⟨oi, b2⟩
      · simp [itemsLoop, hfb, hos]
      · simp only [itemsLoop, hfb, hos]
        exact ih _

/-- Saving a book row back keeps the id column. -/
theorem updateBook_ids (bs : List Book) (b : Book) :
    (updateBook bs b).map Book.id = bs.map Book.id := by
  unfold updateBook
  rw [List.map_map]
  exact List.map_congr_left (fun x _ => by by_cases h : x.id = b.id <;> simp [h])

/-- A stock increment keeps the id column. -/
theorem incB_ids (p : Nat × Nat) (bs : List Book) :
    (incB p bs).map Book.id = bs.map Book.id := by
  unfold incB
  rw [List.map_map]
  exact List.map_congr_left (fun x _ => by by_cases h : x.id = p.1 <;> simp [h])

/-- The item-creation loop keeps the id column of the book table. -/
theorem itemsLoop_books_ids (oid : Nat) (items : List CartItem) (s : St) :
    (itemsLoop oid items s).2.books.map Book.id = s.books.map Book.id := by
  induction items generalizing s with
  | nil => rfl
  | cons it rest ih =>
    rcases hfb : findBook s.books it.bookId with _ | b
    · simp only [itemsLoop, hfb]
    · rcases hos : orderItemSave b oid it.quantity b.price (cartItemSubtotal s.books it) true
        with _ | ⟨oi, b2⟩
      · simp only [itemsLoop, hfb, hos]
      · simp only [itemsLoop, hfb, hos]
        rw [ih]
        exact updateBook_ids s.books b2

/-- What a successful save of a fresh order item amounts to. -/
theorem orderItemSave_true_some (b : Book) (oid qty : Nat) (u su : ℚ)
    (oi : OrderItem) (b2 : Book)
    (h : orderItemSave b oid qty u su true = some (oi, b2)) :
    qty ≤ b.stock ∧ oi = ⟨oid, b.id, qty, b.price, b.price * qty⟩
      ∧ b2 = { b with stock := b.stock - qty } := by
  simp only [orderItemSave, if_pos] at h
  by_cases hstock : b.stock ≥ qty
  · rw [if_pos hstock] at h
    obtain ⟨h1, h2⟩ := Prod.mk.injEq .. ▸ Option.some.injEq .. ▸ h
    exact ⟨hstock, h1.symm, h2.symm⟩
  · rw [if_neg hstock] at h
    exact absurd h (by simp)

/-- A found book row carries the searched id and belongs to the table. -/
theorem findBook_id (books : List Book) (i : Nat) (b : Book)
    (h : findBook books i = some b) : b.id = i ∧ b ∈ books :=
  ⟨by simpa using List.find?_some h, List.mem_of_find?_eq_some h⟩

/-- A found coupon row carries the searched id and belongs to the table. -/
theorem findCoupon_id (cs : List Coupon) (i : Nat) (c : Coupon)
    (h : findCoupon cs i = some c) : c.id = i ∧ c ∈ cs :=
  ⟨by simpa using List.find?_some h, List.mem_of_find?_eq_some h⟩

/-- Stock increments on distinct book ids commute. -/
theorem incB_comm (p r : Nat × Nat) (h : p.1 ≠ r.1) (bs : List Book) :
    incB p (incB r bs) = incB r (incB p bs) := by
  unfold incB
  rw [List.map_map, List.map_map]
  refine List.map_congr_left (fun b _ => ?_)
  by_cases h1 : b.id = r.1 <;> by_cases h2 : b.id = p.1
  · exact absurd (h2.symm.trans h1) h
  · simp [h1, h2, Ne.symm h]
  · simp [h1, h2, h]
  · simp [h1, h2]

/-- Unfolding step of `incAll`. -/
theorem incAll_cons (k : Nat × Nat) (ks : List (Nat × Nat)) (bs : List Book) :
    incAll (k :: ks) bs = incAll ks (incB k bs) := rfl

/-- A stock increment on an id absent from the keys moves past `incAll`. -/
theorem incAll_comm (ks : List (Nat × Nat)) (p : Nat × Nat) (bs : List Book)
    (h : p.1 ∉ ks.map Prod.fst) :
    incAll ks (incB p bs) = incB p (incAll ks bs) := by
  induction ks generalizing bs with
  | nil => rfl
  | cons k rest ih =>
    simp only [List.map_cons, List.mem_cons] at h
    push_neg at h
    rw [incAll_cons, incAll_cons, incB_comm k p (Ne.symm h.1) bs]
    exact ih (incB k bs) h.2

/-- Restoring the quantity taken from a book row undoes its reservation. -/
theorem incB_updateBook_cancel (books : List Book) (b : Book) (q : Nat)
    (hn : (books.map Book.id).Nodup) (hb : b ∈ books) (hq : q ≤ b.stock) :
    incB (b.id, q) (updateBook books { b with stock := b.stock - q }) = books := by
  unfold incB updateBook
  rw [List.map_map]
  refine (List.map_congr_left ?_).trans (List.map_id books)
  intro x hx
  simp only [Function.comp]
  by_cases hxb : x.id = b.id
  · have hxeq : x = b := List.inj_on_of_nodup_map hn hx hb (by rw [hxb])
    subst hxeq
    simp [Nat.sub_add_cancel hq]
  · simp [hxb]

/-- Decrementing the usage counter undoes the redemption increment. -/
theorem couponDec_updateCoupon_cancel (cs : List Coupon) (c : Coupon)
    (hn : (cs.map Coupon.id).Nodup) (hc : c ∈ cs) :
    couponDec (updateCoupon cs { c with current_usage := c.current_usage + 1 }) c.id
      = cs := by
  unfold couponDec updateCoupon
  rw [List.map_map]
  refine (List.map_congr_left ?_).trans (List.map_id cs)
  intro x hx
  simp only [Function.comp]
  by_cases hxc : x.id = c.id
  · have hxeq : x = c := List.inj_on_of_nodup_map hn hx hc (by rw [hxc])
    subst hxeq
    simp
  · simp [hxc]

/-- The stock-restoring loop is the fold of increments over the item keys. -/
theorem restoreLoop_eq_incAll (ois : List OrderItem) (bs : List Book) :
    restoreLoop ois bs = incAll (ois.map (fun oi => (oi.bookId, oi.quantity))) bs := by
  induction ois generalizing bs with
  | nil => rfl
  | cons oi rest ih =>
    rw [List.map_cons, incAll_cons]
    exact ih _

/-- Updating a coupon row makes the lookup return the new row. -/
theorem findCoupon_updateCoupon (cs : List Coupon) (cid : Nat) (c c2 : Coupon)
    (hfc : findCoupon cs cid = some c) (hid : c2.id = cid) :
    findCoupon (updateCoupon cs c2) cid = some c2 := by
  induction cs with
  | nil => exact absurd hfc (by simp [findCoupon])
  | cons x rest ih =>
    unfold findCoupon updateCoupon at *
    by_cases hx : x.id = cid
    · rw [List.map_cons, if_pos (by rw [hx, hid]), List.find?_cons_of_pos _ (by simp [hid])]
    · rw [List.find?_cons_of_neg _ (by simp [hx])] at hfc
      rw [List.map_cons, if_neg (by rw [hid]; exact hx),
        List.find?_cons_of_neg _ (by simp [hx])]
      exact ih hfc

/-- A successful item loop appends one order item per cart item, with
matching (book, quantity) keys and the given order id. -/
theorem itemsLoop_success_orderItems (oid : Nat) (items : List CartItem) (s s' : St)
    (h : itemsLoop oid items s = (none, s')) :
    ∃ new : List OrderItem,
      s'.orderItems = s.orderItems ++ new
        ∧ new.map (fun oi => (oi.bookId, oi.quantity))
            = items.map (fun it => (it.bookId, it.quantity))
        ∧ ∀ oi ∈ new, oi.orderId = oid := by
  induction items generalizing s with
  | nil =>
    refine ⟨[], ?_, rfl, by simp⟩
    unfold itemsLoop at h
    injection h with _ h2
    rw [← h2]
    simp
  | cons it rest ih =>
    rcases hfb : findBook s.books it.bookId with _ | b
    · rw [show itemsLoop oid (it :: rest) s
          = (some (.missingBook it.bookId), s) from by simp [itemsLoop, hfb]] at h
      exact absurd h (by simp)
    · rcases hos : orderItemSave b oid it.quantity b.price (cartItemSubtotal s.books it) true
        with _ | ⟨oi, b2⟩
      · rw [show itemsLoop oid (it :: rest) s
            = (some (.insufficientStock it.bookId), s) from by simp [itemsLoop, hfb, hos]] at h
        exact absurd h (by simp)
      · rw [show itemsLoop oid (it :: rest) s
            = itemsLoop oid rest
                { s with books := updateBook s.books b2,
                         orderItems := s.orderItems ++ [oi] } from
              by simp [itemsLoop, hfb, hos]] at h
        obtain ⟨hq, hoi, hb2⟩ := orderItemSave_true_some b oid it.quantity b.price
          (cartItemSubtotal s.books it) oi b2 hos
        obtain ⟨hbid, _⟩ := findBook_id s.books it.bookId b hfb
        obtain ⟨new, h1, h2, h3⟩ := ih _ h
        refine ⟨oi :: new, ?_, ?_, ?_⟩
        · rw [h1]
          simp
        · rw [List.map_cons, List.map_cons, h2, hoi, hbid]
        · intro x hx
          rcases List.mem_cons.mp hx with hx | hx
          · rw [hx, hoi]
          · exact h3 x hx

/-- Undoing a successful item loop: folding the stock increments over the
cart-item keys on the final book table gives back the initial one. -/
theorem itemsLoop_books_inverse (oid : Nat) (items : List CartItem) (s s' : St)
    (hnB : (s.books.map Book.id).Nodup)
    (hnI : (items.map CartItem.bookId).Nodup)
    (h : itemsLoop oid items s = (none, s')) :
    incAll (items.map (fun it => (it.bookId, it.quantity))) s'.books = s.books := by
  induction items generalizing s with
  | nil =>
    unfold itemsLoop at h
    injection h with _ h2
    rw [← h2]
    rfl
  | cons it rest ih =>
    rcases hfb : findBook s.books it.bookId with _ | b
    · rw [show itemsLoop oid (it :: rest) s
          = (some (.missingBook it.bookId), s) from by simp [itemsLoop, hfb]] at h
      exact absurd h (by simp)
    · rcases hos : orderItemSave b oid it.quantity b.price (cartItemSubtotal s.books it) true
        with _ | ⟨oi, b2⟩
      · rw [show itemsLoop oid (it :: rest) s
            = (some (.insufficientStock it.bookId), s) from by simp [itemsLoop, hfb, hos]] at h
        exact absurd h (by simp)
      · rw [show itemsLoop oid (it :: rest) s
            = itemsLoop oid rest
                { s with books := updateBook s.books b2,
                         orderItems := s.orderItems ++ [oi] } from
              by simp [itemsLoop, hfb, hos]] at h
        obtain ⟨hq, hoi, hb2⟩ := orderItemSave_true_some b oid it.quantity b.price
          (cartItemSubtotal s.books it) oi b2 hos
        obtain ⟨hbid, hbmem⟩ := findBook_id s.books it.bookId b hfb
        rw [List.map_cons, List.nodup_cons] at hnI
        have hnB2 : ((updateBook s.books b2).map Book.id).Nodup := by
          rw [updateBook_ids]
          exact hnB
        have hrest := ih { s with books := updateBook s.books b2,
                                  orderItems := s.orderItems ++ [oi] } hnB2 hnI.2 h
        rw [List.map_cons, incAll_cons]
        have hfst : (it.bookId, it.quantity).1
            ∉ (rest.map (fun x => (x.bookId, x.quantity))).map Prod.fst := by
          rw [List.map_map]
          exact hnI.1
        rw [incAll_comm _ _ _ hfst, hrest]
        rw [← hbid] at hnI hfst ⊢
        rw [hb2]
        exact incB_updateBook_cancel s.books b it.quantity hnB hbmem hq

/-- Success characterization of the redemption block: the coupon is found,
no usage row for the pair exists yet, the counter is incremented and the
usage row inserted. -/
theorem redeemCoupon_success (s : St) (cid oid : Nat) (s' : St)
    (h : redeemCoupon s cid oid = (none, s')) :
    ∃ c, findCoupon s.coupons cid = some c
      ∧ s.usages.any (fun u => u.couponId == cid && u.orderId == oid) = false
      ∧ s' = { s with
            coupons := updateCoupon s.coupons { c with current_usage := c.current_usage + 1 },
            usages := s.usages ++ [⟨cid, s.customer.id, oid⟩] } := by
  simp only [redeemCoupon] at h
  split at h
  · simp at h
  next c heqc =>
    split at h
    · simp at h
    next hdup =>
      injection h with _ h2
      exact ⟨c, heqc, by simpa using hdup, h2.symm⟩

/-- Success characterization of the settlement body: the cart ends empty,
the order id advances, the first-buyer flag ends false, the book and
order-item tables are the outcome of the item loop, the coupon tables
reflect exactly one redemption of the applied coupon (or none), and on the
cash path the order table gains exactly the one new pending order. -/
theorem settle_success (s s' : St) (now : Int) (d : Delivery) (paid : Bool)
    (h : settle s now d paid = (none, s')) :
    s'.cart = ⟨[], none⟩
      ∧ s'.nextOrderId = s.nextOrderId + 1
      ∧ s'.customer = ⟨s.customer.id, false⟩
      ∧ ∃ s2, itemsLoop s.nextOrderId s.cart.items
            { s with orders := s.orders ++ [mkOrder s now s.nextOrderId d],
                     nextOrderId := s.nextOrderId + 1 } = (none, s2)
          ∧ s'.books = s2.books
          ∧ s'.orderItems = s2.orderItems
          ∧ ((s.cart.applied_coupon = none ∧ s'.coupons = s.coupons ∧ s'.usages = s.usages)
              ∨ (∃ cid c, s.cart.applied_coupon = some cid
                   ∧ findCoupon s.coupons cid = some c
                   ∧ s'.coupons
                       = updateCoupon s.coupons { c with current_usage := c.current_usage + 1 }
                   ∧ s'.usages = s.usages ++ [⟨cid, s.customer.id, s.nextOrderId⟩]))
          ∧ (paid = false → s'.orders = s.orders ++ [mkOrder s now s.nextOrderId d]) := by
  simp only [settle] at h
  split at h
  next e s2 heq => simp at h
  next s2 heq =>
    have hframe := itemsLoop_frame s.nextOrderId s.cart.items
      { s with orders := s.orders ++ [mkOrder s now s.nextOrderId d],
               nextOrderId := s.nextOrderId + 1 }
    rw [heq] at hframe
    have hcoup : s2.coupons = s.coupons := hframe.1
    have husg : s2.usages = s.usages := hframe.2.1
    have hord : s2.orders = s.orders ++ [mkOrder s now s.nextOrderId d] := hframe.2.2.1
    have hcart : s2.cart = s.cart := hframe.2.2.2.2.1
    have hcust : s2.customer = s.customer := hframe.2.2.2.2.2.1
    have hnoid : s2.nextOrderId = s.nextOrderId + 1 := hframe.2.2.2.2.2.2
    split at h
    next e s3 heq2 => simp at h
    next s3 heq2 =>
      have hs3 : s3.books = s2.books ∧ s3.orderItems = s2.orderItems
          ∧ s3.nextOrderId = s2.nextOrderId ∧ s3.customer = s2.customer
          ∧ s3.orders = s2.orders
          ∧ ((s.cart.applied_coupon = none ∧ s3.coupons = s.coupons ∧ s3.usages = s.usages)
              ∨ (∃ cid c, s.cart.applied_coupon = some cid
                   ∧ findCoupon s.coupons cid = some c
                   ∧ s3.coupons
                       = updateCoupon s.coupons { c with current_usage := c.current_usage + 1 }
                   ∧ s3.usages = s.usages ++ [⟨cid, s.customer.id, s.nextOrderId⟩])) := by
        rcases hap : s.cart.applied_coupon with _ | cid
        · rw [hcart, hap] at heq2
          injection heq2 with _ h3
          subst h3
          exact ⟨rfl, rfl, rfl, rfl, rfl, Or.inl ⟨rfl, hcoup, husg⟩⟩
        · rw [hcart, hap] at heq2
          obtain ⟨c, hfc, hdup, hs3eq⟩ := redeemCoupon_success s2 cid s.nextOrderId s3 heq2
          rw [hcoup] at hfc
          subst hs3eq
          refine ⟨rfl, rfl, rfl, rfl, rfl, Or.inr ⟨cid, c, rfl, hfc, ?_, ?_⟩⟩
          · show updateCoupon s2.coupons _ = updateCoupon s.coupons _
            rw [hcoup]
          · show s2.usages ++ [⟨cid, s2.customer.id, s.nextOrderId⟩]
                = s.usages ++ [⟨cid, s.customer.id, s.nextOrderId⟩]
            rw [husg, hcust]
      obtain ⟨h3b, h3oi, h3n, h3c, h3o, h3cu⟩ := hs3
      rcases hflag : s3.customer.is_first_time_buyer with _ | _
      · simp only [hflag, Bool.false_eq_true, if_false] at h
        injection h with _ h2
        subst h2
        have hflag2 : s.customer.is_first_time_buyer = false := by
          rw [← hcust, ← h3c]
          exact hflag
        refine ⟨rfl, h3n.trans hnoid, ?_, s2, heq, h3b, h3oi, h3cu, ?_⟩
        · show s3.customer = _
          rw [h3c, hcust, ← hflag2]
        · intro hpaid
          subst hpaid
          have hps : paymentSignal s3.orders
              { orderId := s.nextOrderId,
                amount := orderTotalAmount s3.orderItems (mkOrder s now s.nextOrderId d),
                method := if false = true then PayMethod.Card else PayMethod.Cash,
                status := if false = true then PayStatus.Paid else PayStatus.Unpaid }
              = s3.orders := by
            simp only [paymentSignal]
            rw [if_neg (by simp)]
          exact hps.trans (h3o.trans hord)
      · simp only [hflag, if_true] at h
        injection h with _ h2
        subst h2
        refine ⟨rfl, h3n.trans hnoid, ?_, s2, heq, h3b, h3oi, h3cu, ?_⟩
        · show (⟨s3.customer.id, false⟩ : Customer) = _
          rw [h3c, hcust]
        · intro hpaid
          subst hpaid
          have hps : paymentSignal s3.orders
              { orderId := s.nextOrderId,
                amount := orderTotalAmount s3.orderItems (mkOrder s now s.nextOrderId d),
                method := if false = true then PayMethod.Card else PayMethod.Cash,
                status := if false = true then PayStatus.Paid else PayStatus.Unpaid }
              = s3.orders := by
            simp only [paymentSignal]
            rw [if_neg (by simp)]
          exact hps.trans (h3o.trans hord)

/-- A failed redemption leaves the usage table unchanged (only the counter
increment may have been persisted). -/
theorem redeemCoupon_error_usages (s : St) (cid oid : Nat) (e : SettleErr) (s' : St)
    (h : redeemCoupon s cid oid = (some e, s')) : s'.usages = s.usages := by
  simp only [redeemCoupon] at h
  split at h
  · injection h with _ h2
    subst h2
    rfl
  next c heqc =>
    split at h
    next hdup =>
      injection h with _ h2
      subst h2
      rfl
    next hdup => simp at h

/-- In every outcome of the settlement body, the usage table is unchanged
or gains exactly one new row whose (coupon, order) pair was not already
present. -/
theorem settle_usages (s s' : St) (now : Int) (d : Delivery) (paid : Bool)
    (r : Option SettleErr) (h : settle s now d paid = (r, s')) :
    s'.usages = s.usages
      ∨ ∃ cid, s'.usages = s.usages ++ [⟨cid, s.customer.id, s.nextOrderId⟩]
          ∧ s.usages.any (fun u => u.couponId == cid && u.orderId == s.nextOrderId)
              = false := by
  simp only [settle] at h
  have hframe := itemsLoop_frame s.nextOrderId s.cart.items
    { s with orders := s.orders ++ [mkOrder s now s.nextOrderId d],
             nextOrderId := s.nextOrderId + 1 }
  split at h
  next e s2 heq =>
    rw [heq] at hframe
    injection h with _ h2
    subst h2
    exact Or.inl hframe.2.1
  next s2 heq =>
    rw [heq] at hframe
    have husg : s2.usages = s.usages := hframe.2.1
    have hcust : s2.customer = s.customer := hframe.2.2.2.2.2.1
    split at h
    next e s3 heq2 =>
      injection h with _ h2
      subst h2
      rcases hap : s2.cart.applied_coupon with _ | cid
      · rw [hap] at heq2
        simp at heq2
      · rw [hap] at heq2
        exact Or.inl ((redeemCoupon_error_usages s2 cid s.nextOrderId e s3 heq2).trans husg)
    next s3 heq2 =>
      injection h with _ h2
      subst h2
      rcases hap : s2.cart.applied_coupon with _ | cid
      · rw [hap] at heq2
        injection heq2 with _ h3
        subst h3
        rcases hflag : s2.customer.is_first_time_buyer with _ | _ <;>
          simp only [hflag, Bool.false_eq_true, if_false, if_true] <;>
          exact Or.inl husg
      · rw [hap] at heq2
        obtain ⟨c, hfc, hdup, hs3eq⟩ := redeemCoupon_success s2 cid s.nextOrderId s3 heq2
        subst hs3eq
        rw [husg] at hdup
        refine Or.inr ⟨cid, ?_, hdup⟩
        rcases hflag : s2.customer.is_first_time_buyer with _ | _ <;>
          simp only [hflag, Bool.false_eq_true, if_false, if_true] <;>
          rw [husg, hcust]

/-- A successful checkout outcome comes from a successful settlement of
the very cart, and reports the fresh order id. -/
theorem checkoutCash_success (s : St) (now : Int) (d : Delivery) (oid : Nat)
    (h : (checkoutCash s now d).1 = .success oid) :
    settle s now d false = (none, (checkoutCash s now d).2)
      ∧ oid = s.nextOrderId := by
  unfold checkoutCash at h ⊢
  by_cases h1 : s.cart.items = []
  · rw [if_pos h1] at h
    exact absurd h (by simp)
  · rw [if_neg h1] at h ⊢
    by_cases h2 : d.name = [] ∨ d.phone = [] ∨ d.address = []
    · rw [if_pos h2] at h
      exact absurd h (by simp)
    · rw [if_neg h2] at h ⊢
      split at h
      next e s2 heq => simp at h
      next s2 heq =>
        simp at h
        rw [heq]
        exact ⟨rfl, by omega⟩

/-- C2 (amended): (i) checkout keeps the (coupon, order) usage pairs
duplicate-free, so at most one usage row exists per pair; (ii) running
settlement again after a success aborts on the empty-cart guard with no
state change, so a retry cannot double-increment `current_usage`; (iii) a
successful settlement with an applied coupon increments its counter
exactly once and appends exactly one usage row for the new order; (iv)
however, a redemption attempted for a pair that already has a usage row
fails only after the counter increment has been persisted — `current_usage`
is increased by one, not left unchanged as the claim states. -/
theorem c2_exactly_once_redemption :
    (∀ (s : St) (now : Int) (d : Delivery),
      (usagePairs s.usages).Nodup →
      (usagePairs (checkoutCash s now d).2.usages).Nodup) ∧
    (∀ (s : St) (now now2 : Int) (d d2 : Delivery) (oid : Nat),
      (checkoutCash s now d).1 = .success oid →
      checkoutCash (checkoutCash s now d).2 now2 d2
        = (.emptyCart, (checkoutCash s now d).2)) ∧
    (∀ (s : St) (now : Int) (d : Delivery) (oid cid : Nat) (c : Coupon),
      (checkoutCash s now d).1 = .success oid →
      s.cart.applied_coupon = some cid →
      findCoupon s.coupons cid = some c →
      findCoupon (checkoutCash s now d).2.coupons cid
          = some { c with current_usage := c.current_usage + 1 }
        ∧ (checkoutCash s now d).2.usages
            = s.usages ++ [⟨cid, s.customer.id, s.nextOrderId⟩]) ∧
    (∀ (s : St) (cid oid : Nat) (c : Coupon),
      findCoupon s.coupons cid = some c →
      (∃ u ∈ s.usages, u.couponId = cid ∧ u.orderId = oid) →
      redeemCoupon s cid oid
        = (some (.duplicateUsage cid),
           { s with coupons :=
              updateCoupon s.coupons { c with current_usage := c.current_usage + 1 } })) := by
  refine ⟨?_, ?_, ?_, ?_⟩
  · intro s now d hnd
    unfold checkoutCash
    by_cases h1 : s.cart.items = []
    · rw [if_pos h1]
      exact hnd
    · rw [if_neg h1]
      by_cases h2 : d.name = [] ∨ d.phone = [] ∨ d.address = []
      · rw [if_pos h2]
        exact hnd
      · rw [if_neg h2]
        rcases hs : settle s now d false with ⟨r, s2⟩
        have hgoal : (usagePairs s2.usages).Nodup := by
          rcases settle_usages s s2 now d false r hs with husg | ⟨cid, husg, hany⟩
          · rw [husg]
            exact hnd
          · rw [husg]
            unfold usagePairs
            rw [List.map_append, List.nodup_append]
            refine ⟨hnd, by simp, ?_⟩
            intro p hp hq
            simp only [List.map_cons, List.map_nil, List.mem_singleton] at hq
            subst hq
            obtain ⟨u, hu, hup⟩ := List.mem_map.mp hp
            have hne := List.any_eq_false.mp hany u hu
            simp only [Bool.and_eq_true, beq_iff_eq] at hne
            rw [Prod.mk.injEq] at hup
            exact hne hup
        cases r with
        | some e => exact hgoal
        | none => exact hgoal
  · intro s now now2 d d2 oid h
    obtain ⟨hset, -⟩ := checkoutCash_success s now d oid h
    have hcart := (settle_success s _ now d false hset).1
    set X := (checkoutCash s now d).2 with hX
    unfold checkoutCash
    rw [if_pos (by rw [hcart])]
  · intro s now d oid cid c h hap hfc
    obtain ⟨hset, -⟩ := checkoutCash_success s now d oid h
    obtain ⟨-, -, -, s2, hIL, -, -, hcu, -⟩ := settle_success s _ now d false hset
    rcases hcu with ⟨hap2, -, -⟩ | ⟨cid2, c2, hap2, hfc2, hcoups, husgs⟩
    · rw [hap] at hap2
      exact absurd hap2 (by simp)
    · rw [hap] at hap2
      injection hap2 with hcid
      subst hcid
      rw [hfc] at hfc2
      injection hfc2 with hc
      subst hc
      constructor
      · rw [hcoups]
        exact findCoupon_updateCoupon s.coupons cid c _ hfc (findCoupon_id s.coupons cid c hfc).1
      · exact husgs
  · intro s cid oid c hfc hex
    obtain ⟨u, hu, hcid, hoid⟩ := hex
    have hany : s.usages.any (fun u => u.couponId == cid && u.orderId == oid) = true :=
      List.any_eq_true.mpr ⟨u, hu, by simp [hcid, hoid]⟩
    simp only [redeemCoupon, hfc]
    rw [if_pos hany]

/-- Witness for C2 at concrete states: the checkout of `stC3` succeeds and
keeps the usage pairs duplicate-free, a re-run aborts on the empty cart
without touching the state, the coupon counter was incremented exactly
once, and the duplicate-pair redemption of `stC2` returns the
incremented-counter state together with the failure. -/
theorem c2_witness :
    (usagePairs (checkoutCash stC3 0 dOk).2.usages).Nodup
      ∧ checkoutCash (checkoutCash stC3 0 dOk).2 0 dOk
          = (.emptyCart, (checkoutCash stC3 0 dOk).2)
      ∧ findCoupon (checkoutCash stC3 0 dOk).2.coupons 7
          = some { couponSave with current_usage := couponSave.current_usage + 1 }
      ∧ redeemCoupon stC2 7 0
          = (some (.duplicateUsage 7),
             { stC2 with coupons :=
                updateCoupon stC2.coupons { couponSave with current_usage := couponSave.current_usage + 1 } }) := by
  have hsucc : (checkoutCash stC3 0 dOk).1 = .success 0 := by
    norm_num [checkoutCash, settle, mkOrder, itemsLoop, orderItemSave, findBook, updateBook,
      cartItemSubtotal, cartSubtotal, cartCouponDiscount, cartOrderValueDiscount,
      orderValueDiscountFn, cartFirstTimeDiscount, calculateShipping, cartTotalItems,
      stC3, dOk, couponSave, redeemCoupon, findCoupon, updateCoupon, couponIsValid,
      couponValidate, calculateDiscount, paymentSignal, orderTotalAmount, orderSubtotal,
      List.cons_ne_nil]
  refine ⟨c2_exactly_once_redemption.1 stC3 0 dOk (by simp [usagePairs, stC3]),
          c2_exactly_once_redemption.2.1 stC3 0 0 dOk dOk 0 hsucc,
          (c2_exactly_once_redemption.2.2.1 stC3 0 dOk 0 7 couponSave hsucc rfl rfl).1,
          c2_exactly_once_redemption.2.2.2 stC2 7 0 couponSave rfl
            ⟨⟨7, 1, 0⟩, by simp [stC2], rfl, rfl⟩⟩

/-- C3: cancellation fails with NotCancellable, changing nothing, for
every order whose status is neither Pending nor Confirmed; it succeeds on
every Pending or Confirmed order; and cancelling the order produced by a
successful cash settlement restores every book stock, the coupon usage
counter and the usage rows to their pre-settlement values, and marks the
order Cancelled with the stripped reason and the cancellation instant. -/
theorem c3_cancellation_reverses_settlement :
    (∀ (s : St) (oid : Nat) (rinp : Str) (now : Int) (o : Order),
      s.orders.find? (fun x => x.id == oid) = some o →
      o.status ≠ .Pending → o.status ≠ .Confirmed →
      cancelOrder s oid rinp now = (.notCancellable, s)) ∧
    (∀ (s : St) (oid : Nat) (rinp : Str) (now : Int) (o : Order),
      s.orders.find? (fun x => x.id == oid) = some o →
      (o.status = .Pending ∨ o.status = .Confirmed) →
      (cancelOrder s oid rinp now).1 = .ok) ∧
    (∀ (s s1 : St) (now now2 : Int) (d : Delivery) (rinp : Str),
      (s.books.map Book.id).Nodup →
      (s.cart.items.map CartItem.bookId).Nodup →
      (∀ o ∈ s.orders, o.id ≠ s.nextOrderId) →
      (∀ u ∈ s.usages, u.orderId ≠ s.nextOrderId) →
      (∀ oi ∈ s.orderItems, oi.orderId ≠ s.nextOrderId) →
      (s.coupons.map Coupon.id).Nodup →
      settle s now d false = (none, s1) →
      (cancelOrder s1 s.nextOrderId rinp now2).1 = .ok
        ∧ (cancelOrder s1 s.nextOrderId rinp now2).2.books = s.books
        ∧ (cancelOrder s1 s.nextOrderId rinp now2).2.coupons = s.coupons
        ∧ (cancelOrder s1 s.nextOrderId rinp now2).2.usages = s.usages
        ∧ (∃ o ∈ (cancelOrder s1 s.nextOrderId rinp now2).2.orders,
            o.id = s.nextOrderId ∧ o.status = .Cancelled
              ∧ o.cancellation_reason
                  = (if pyStrip rinp = [] then none else some (pyStrip rinp))
              ∧ o.cancelled_at = some now2)) := by
  refine ⟨?_, ?_, ?_⟩
  · intro s oid rinp now o hfind hnp hnc
    simp only [cancelOrder, hfind]
    rw [if_pos ⟨hnp, hnc⟩]
  · intro s oid rinp now o hfind hpc
    simp only [cancelOrder, hfind]
    rw [if_neg (by rcases hpc with hp | hp <;> simp [hp])]
  · intro s s1 now now2 d rinp hnB hnI hfreshO hfreshU hfreshOI hnC hset
    obtain ⟨hcart1, hnoid1, hcust1, s2, hIL, hbooks1, hoi1, hcu1, hords1⟩ :=
      settle_success s s1 now d false hset
    have hords : s1.orders = s.orders ++ [mkOrder s now s.nextOrderId d] := hords1 rfl
    have hfind : s1.orders.find? (fun x => x.id == s.nextOrderId)
        = some (mkOrder s now s.nextOrderId d) := by
      rw [hords, List.find?_append]
      have hnone : s.orders.find? (fun x => x.id == s.nextOrderId) = none := by
        rw [List.find?_eq_none]
        intro x hx
        simp [hfreshO x hx]
      rw [hnone, Option.none_or]
      exact List.find?_cons_of_pos _ (beq_self_eq_true _)
    obtain ⟨new, hoieq0, hkeys, hnewOid⟩ :=
      itemsLoop_success_orderItems s.nextOrderId s.cart.items _ s2 hIL
    have hoieq : s2.orderItems = s.orderItems ++ new := hoieq0
    have hfilter : s1.orderItems.filter (fun oi => oi.orderId == s.nextOrderId) = new := by
      rw [hoi1, hoieq, List.filter_append,
        List.filter_eq_nil_iff.mpr (fun oi hoi => by simp [hfreshOI oi hoi]),
        List.filter_eq_self.mpr (fun oi hoi => by simp [hnewOid oi hoi]), List.nil_append]
    have hinv : incAll (s.cart.items.map (fun it => (it.bookId, it.quantity))) s2.books
        = s.books :=
      itemsLoop_books_inverse s.nextOrderId s.cart.items
        { s with orders := s.orders ++ [mkOrder s now s.nextOrderId d],
                 nextOrderId := s.nextOrderId + 1 } s2 hnB hnI hIL
    have hbooksFinal :
        restoreLoop (s1.orderItems.filter (fun oi => oi.orderId == s.nextOrderId)) s1.books
          = s.books := by
      rw [hfilter, hbooks1, restoreLoop_eq_incAll, hkeys]
      exact hinv
    refine ⟨?_, ?_, ?_, ?_, ?_⟩
    · simp only [cancelOrder, hfind]
      rw [if_neg (by simp [mkOrder])]
    · simp only [cancelOrder, hfind]
      rw [if_neg (by simp [mkOrder])]
      exact hbooksFinal
    · simp only [cancelOrder, hfind]
      rw [if_neg (by simp [mkOrder])]
      rcases hcu1 with ⟨hapc, hcoups, husgs⟩ | ⟨cid, c, hapc, hfc, hcoups, husgs⟩
      · have hapm : (mkOrder s now s.nextOrderId d).applied_coupon = none := hapc
        rw [hapm]
        exact hcoups
      · have hapm : (mkOrder s now s.nextOrderId d).applied_coupon = some cid := hapc
        rw [hapm]
        show couponDec s1.coupons cid = s.coupons
        rw [hcoups]
        obtain ⟨hcid, hcmem⟩ := findCoupon_id s.coupons cid c hfc
        rw [← hcid]
        exact couponDec_updateCoupon_cancel s.coupons c hnC hcmem
    · simp only [cancelOrder, hfind]
      rw [if_neg (by simp [mkOrder])]
      rcases hcu1 with ⟨hapc, hcoups, husgs⟩ | ⟨cid, c, hapc, hfc, hcoups, husgs⟩
      · have hapm : (mkOrder s now s.nextOrderId d).applied_coupon = none := hapc
        rw [hapm]
        exact husgs
      · have hapm : (mkOrder s now s.nextOrderId d).applied_coupon = some cid := hapc
        rw [hapm]
        show s1.usages.filter (fun u => !(u.orderId == s.nextOrderId)) = s.usages
        rw [husgs, List.filter_append,
          List.filter_eq_self.mpr (fun u hu => by simp [hfreshU u hu])]
        simp
    · simp only [cancelOrder, hfind]
      rw [if_neg (by simp [mkOrder])]
      refine ⟨{ mkOrder s now s.nextOrderId d with
                  status := .Cancelled,
                  cancellation_reason :=
                    if pyStrip rinp = [] then none else some (pyStrip rinp),
                  cancelled_at := some now2 }, ?_, rfl, rfl, rfl, rfl⟩
      show _ ∈ s1.orders.map _
      rw [hords, List.map_append]
      refine List.mem_append_right _ ?_
      simp only [List.map_cons, List.map_nil, List.mem_singleton]
      rw [if_pos (show (mkOrder s now s.nextOrderId d).id = s.nextOrderId from rfl)]

/-- Witness for C3: cancelling the shipped order of `stShip` is refused
with no state change, while cancelling the order settled from `stC3`
succeeds and restores the books, the coupon counter and the usage rows to
their pre-settlement values. -/
theorem c3_witness :
    cancelOrder stShip 0 [] 5 = (.notCancellable, stShip)
      ∧ (cancelOrder (settle stC3 0 dOk false).2 stC3.nextOrderId [] 5).1 = .ok
      ∧ (cancelOrder (settle stC3 0 dOk false).2 stC3.nextOrderId [] 5).2.books = stC3.books
      ∧ (cancelOrder (settle stC3 0 dOk false).2 stC3.nextOrderId [] 5).2.coupons
          = stC3.coupons
      ∧ (cancelOrder (settle stC3 0 dOk false).2 stC3.nextOrderId [] 5).2.usages
          = stC3.usages := by
  have h1 : (settle stC3 0 dOk false).1 = none := by
    norm_num [settle, mkOrder, itemsLoop, orderItemSave, findBook, updateBook,
      cartItemSubtotal, cartSubtotal, cartCouponDiscount, cartOrderValueDiscount,
      orderValueDiscountFn, cartFirstTimeDiscount, calculateShipping, cartTotalItems,
      stC3, dOk, couponSave, redeemCoupon, findCoupon, updateCoupon, couponIsValid,
      couponValidate, calculateDiscount, paymentSignal, orderTotalAmount, orderSubtotal]
  have hset : settle stC3 0 dOk false = (none, (settle stC3 0 dOk false).2) := by
    rw [← h1]
  have hmain := c3_cancellation_reverses_settlement.2.2 stC3 (settle stC3 0 dOk false).2
    0 5 dOk [] (by decide) (by decide) (by decide) (by decide) (by decide) (by decide) hset
  exact ⟨c3_cancellation_reverses_settlement.1 stShip 0 [] 5 _ rfl (by decide) (by decide),
         hmain.1, hmain.2.1, hmain.2.2.1, hmain.2.2.2.1⟩

end Shelfly
